import Mathlib

/-!
Shallow embedding of the receipt-analysis core of src/js/init.js:
the Normalizer (normalizeItem, normalizeReceipt, generateReceiptId),
the Deduplicator (mergeReceipts), the Validator (validateItem,
validateReceipt, validateJSONStructure), the Filter Engine
(applyFilters) and the Aggregator (calculateTotals,
calculateExecutiveRewards).  JS numbers are modelled as exact
rationals; JS duck-typed field values as the inductive type IVal;
fallible coercions (NaN) as Option.
-/

/-- A JS value as it can sit in a raw receipt or raw item field.
undef models an absent field (and the value undefined), iarr an array
value whose contents the code never inspects, other any remaining
object value. -/
inductive IVal where
  | undef : IVal
  | inull : IVal
  | num : ℚ → IVal
  | str : String → IVal
  | boolv : Bool → IVal
  | iarr : IVal
  | other : IVal
deriving Repr, DecidableEq

/-- JS truthiness of an IVal (NaN never arises: a stored number is an
exact rational). -/
def truthy : IVal → Bool
  | .undef => false
  | .inull => false
  | .num q => q != 0
  | .str s => s != ""
  | .boolv b => b
  | .iarr => true
  | .other => true

def isNum : IVal → Bool
  | .num _ => true
  | _ => false

def isStr : IVal → Bool
  | .str _ => true
  | _ => false

def isArr : IVal → Bool
  | .iarr => true
  | _ => false

/-- The string content of a value, empty for non-strings (used where the
source calls a string method on a value already known to be a string). -/
def strValOrEmpty : IVal → String
  | .str s => s
  | _ => ""

/-- Value of a run of decimal digit characters. -/
def digitsToNat (ds : List Char) : ℕ :=
  ds.foldl (fun a c => a * 10 + (c.toNat - 48)) 0

/-- Parse an unsigned decimal number (digits, optionally a point and
more digits) off the front of a character list; returns the value and
the unconsumed rest. -/
def parseUnsignedDec (cs : List Char) : Option (ℚ × List Char) :=
  let ip := cs.takeWhile Char.isDigit
  let r1 := cs.dropWhile Char.isDigit
  match r1 with
  | '.' :: r2 =>
      let fp := r2.takeWhile Char.isDigit
      let r3 := r2.dropWhile Char.isDigit
      if ip.isEmpty && fp.isEmpty then none
      else some ((digitsToNat ip : ℚ) + (digitsToNat fp : ℚ) / (10 : ℚ) ^ fp.length, r3)
  | _ => if ip.isEmpty then none else some ((digitsToNat ip : ℚ), r1)

/-- JS parseFloat on a string: leading whitespace skipped, optional
sign, longest decimal prefix; none models NaN.  (Exponent and hex
forms, which the repository's data never uses, are out of the model.) -/
def jsParseFloat (s : String) : Option ℚ :=
  let cs := s.toList.dropWhile Char.isWhitespace
  match cs with
  | '-' :: rest => (parseUnsignedDec rest).map (fun p => -p.1)
  | '+' :: rest => (parseUnsignedDec rest).map (fun p => p.1)
  | _ => (parseUnsignedDec cs).map (fun p => p.1)

/-- JS Number(string): the whole trimmed string must be a decimal
number; the empty string is 0; none models NaN. -/
def jsNumberOfString (s : String) : Option ℚ :=
  let cs := ((s.toList.dropWhile Char.isWhitespace).reverse.dropWhile Char.isWhitespace).reverse
  if cs.isEmpty then some 0
  else
    let core : List Char → Bool → Option ℚ := fun l neg =>
      match parseUnsignedDec l with
      | some (q, []) => some (if neg then -q else q)
      | _ => none
    match cs with
    | '-' :: rest => core rest true
    | '+' :: rest => core rest false
    | _ => core cs false

/-- JS Number(value); none models NaN. -/
def jsNumber : IVal → Option ℚ
  | .undef => none
  | .inull => some 0
  | .num q => some q
  | .str s => jsNumberOfString s
  | .boolv b => some (if b then 1 else 0)
  | .iarr => none    -- Number of a non-trivial array: NaN in the cases arising here
  | .other => none

/-- The idiom Number(x) or-else 0 of the source (NaN and 0 both give 0). -/
def numberOr0 (v : IVal) : ℚ := (jsNumber v).getD 0

/-- JS Math.round: half rounds toward positive infinity. -/
def jsRound (q : ℚ) : ℤ := ⌊q + 1 / 2⌋

/-- Math.round(x * 100) / 100, the source's rounding to cents. -/
def round2 (q : ℚ) : ℚ := (jsRound (q * 100) : ℚ) / 100

/-- JS ToInteger (truncation toward zero), used by the Date constructor. -/
def jsTrunc (q : ℚ) : ℤ := if 0 ≤ q then ⌊q⌋ else ⌈q⌉

/-- Decimal rendering of a rational whose denominator divides a power of
ten, as JS prints such numbers; other denominators (not produced by the
data) fall back to the raw rational rendering. -/
def qToJsString (q : ℚ) : String :=
  if q.den = 1 then toString q.num
  else
    match (List.range 20).find? (fun e => (q * (10 : ℚ) ^ (e + 1)).den = 1) with
    | some e =>
        let digits := e + 1
        let n := (q * (10 : ℚ) ^ digits).num
        let sign := if n < 0 then "-" else ""
        let ds := (toString n.natAbs).toList
        let ds := if ds.length ≤ digits then List.replicate (digits + 1 - ds.length) '0' ++ ds else ds
        sign ++ String.mk (ds.take (ds.length - digits)) ++ "." ++ String.mk (ds.drop (ds.length - digits))
    | none => toString q

/-- JS String(value) conversion. -/
def jsToString : IVal → String
  | .undef => "undefined"
  | .inull => "null"
  | .num q => qToJsString q
  | .str s => s
  | .boolv b => if b then "true" else "false"
  | .iarr => ""
  | .other => "[object Object]"

/-- Whether the first character list is a leading segment of the
second (JS String.prototype.startsWith, on character lists). -/
def listLeads : List Char → List Char → Bool
  | [], _ => true
  | _ :: _, [] => false
  | p :: ps, c :: cs => p = c && listLeads ps cs

/-- JS String.prototype.startsWith. -/
def strStarts (s p : String) : Bool := listLeads p.toList s.toList

/-- The maximal whitespace-separated words of a character list
(accumulator-passing so that the recursion is structural). -/
def splitWs : List Char → List Char → List (List Char) → List (List Char)
  | [], cur, acc => acc ++ (if cur.isEmpty then [] else [cur.reverse])
  | c :: rest, cur, acc =>
      if c.isWhitespace then
        splitWs rest [] (acc ++ (if cur.isEmpty then [] else [cur.reverse]))
      else splitWs rest (c :: cur) acc

/-- Join words with single spaces. -/
def joinSpace : List (List Char) → List Char
  | [] => []
  | w :: rest =>
      match rest with
      | [] => w
      | _ :: _ => w ++ ' ' :: joinSpace rest

/-- cleanText of init.js: non-strings and the empty string give the
empty string, otherwise trim, collapse whitespace runs to one space,
cap at 500 characters. -/
def cleanText (v : IVal) : String :=
  match v with
  | .str s =>
      if s = "" then ""
      else String.mk ((joinSpace (splitWs s.toList [] [])).take 500)
  | _ => ""

/-- Substring occurrence on character lists. -/
def hasSub : List Char → List Char → Bool
  | [], sub => sub.isEmpty
  | c :: rest, sub => listLeads sub (c :: rest) || hasSub rest sub

/-- JS String.prototype.includes. -/
def jsIncludes (s sub : String) : Bool :=
  if sub = "" then true else hasSub s.toList sub.toList

/-- JS String.prototype.toLowerCase (ASCII, the repository data's
alphabet). -/
def strLower (s : String) : String := String.mk (s.toList.map Char.toLower)

/-- The base64 alphabet, for btoa. -/
def b64char (n : ℕ) : Char :=
  "ABCDEFGHIJKLMNOPQRSTUVWXYZabcdefghijklmnopqrstuvwxyz0123456789+/".toList.getD n 'A'

/-- btoa on a list of byte values. -/
def btoaBytes : List ℕ → List Char
  | [] => []
  | [a] => [b64char (a / 4), b64char (a % 4 * 16), '=', '=']
  | [a, b] => [b64char (a / 4), b64char (a % 4 * 16 + b / 16), b64char (b % 16 * 4), '=']
  | a :: b :: c :: rest =>
      b64char (a / 4) :: b64char (a % 4 * 16 + b / 16) ::
        b64char (b % 16 * 4 + c / 64) :: b64char (c % 64) :: btoaBytes rest

/-- JS btoa on a (latin1) string. -/
def btoa (s : String) : String :=
  String.mk (btoaBytes (s.toList.map (fun c => c.toNat % 256)))

/-! ## Calendar model: JS Dates at day granularity -/

/-- A calendar date (the model keeps JS Date objects at day
granularity, which is the granularity of both the data's date strings
and every comparison the embedded functions make). -/
structure SimpleDate where
  year : ℤ
  month : ℤ
  day : ℤ
deriving Repr, DecidableEq

/-- Timestamp order on valid calendar dates is lexicographic. -/
def dateLt (a b : SimpleDate) : Bool :=
  decide (a.year < b.year) ||
    (decide (a.year = b.year) &&
      (decide (a.month < b.month) ||
        (decide (a.month = b.month) && decide (a.day < b.day))))

def isLeapYear (y : ℤ) : Bool :=
  (decide (y % 4 = 0) && !decide (y % 100 = 0)) || decide (y % 400 = 0)

def daysInMonth (y m : ℤ) : ℤ :=
  if m = 2 then (if isLeapYear y then 29 else 28)
  else if m = 4 ∨ m = 6 ∨ m = 9 ∨ m = 11 then 30
  else 31

/-- Days since 1970-01-01 of a valid civil date (standard civil-calendar
arithmetic, used only to normalize out-of-range Date constructor
arguments). -/
def epochDayOf (d : SimpleDate) : ℤ :=
  let y := if d.month ≤ 2 then d.year - 1 else d.year
  let era := y / 400
  let yoe := y - era * 400
  let mp := (d.month + 9) % 12
  let doy := (153 * mp + 2) / 5 + d.day - 1
  let doe := yoe * 365 + yoe / 4 - yoe / 100 + doy
  era * 146097 + doe - 719468

/-- Civil date of a days-since-1970 count (inverse of epochDayOf). -/
def civilFromDays (z : ℤ) : SimpleDate :=
  let z' := z + 719468
  let era := z' / 146097
  let doe := z' - era * 146097
  let yoe := (doe - doe / 1460 + doe / 36524 - doe / 146096) / 365
  let y := yoe + era * 400
  let doy := doe - (365 * yoe + yoe / 4 - yoe / 100)
  let mp := (5 * doy + 2) / 153
  let d := doy - (153 * mp + 2) / 5 + 1
  let m := mp + (if mp < 10 then 3 else -9)
  ⟨if m ≤ 2 then y + 1 else y, m, d⟩

/-- new Date(year, monthIndex, day) at day granularity: month is
normalized by floor division, then a day offset outside the month rolls
over through the calendar exactly as JS time arithmetic does.  The
in-range case is kept as a direct branch (extensionally the same date
JS produces). -/
def mkLocalDate (y m0 d : ℤ) : SimpleDate :=
  let ym := y * 12 + m0
  let yy := ym / 12
  let mm := ym % 12 + 1
  if 1 ≤ d ∧ d ≤ daysInMonth yy mm then ⟨yy, mm, d⟩
  else civilFromDays (epochDayOf ⟨yy, mm, 1⟩ + (d - 1))

/-- The calendar date one day before a valid date (used to state the
cycle-boundary property). -/
def prevCalendarDay (d : SimpleDate) : SimpleDate :=
  if 1 < d.day then ⟨d.year, d.month, d.day - 1⟩
  else if 1 < d.month then ⟨d.year, d.month - 1, daysInMonth d.year (d.month - 1)⟩
  else ⟨d.year - 1, 12, 31⟩

/-- parseDate of init.js on a date-only ISO string YYYY-MM-DD; any
other value gives null (new Date rejects it or the falsy guard fires).
Date-and-time strings do not occur in the repository's inputs. -/
def parseIsoDate (s : String) : Option SimpleDate :=
  match s.toList with
  | [y1, y2, y3, y4, '-', m1, m2, '-', d1, d2] =>
      if [y1, y2, y3, y4, m1, m2, d1, d2].all Char.isDigit then
        let y : ℤ := (digitsToNat [y1, y2, y3, y4] : ℤ)
        let m : ℤ := (digitsToNat [m1, m2] : ℤ)
        let d : ℤ := (digitsToNat [d1, d2] : ℤ)
        if 1 ≤ m ∧ m ≤ 12 ∧ 1 ≤ d ∧ d ≤ daysInMonth y m then some ⟨y, m, d⟩ else none
      else none
  | _ => none

/-- parseDate of init.js: falsy input gives null, a string is parsed,
an unparseable value gives null. -/
def jsParseDate (v : IVal) : Option SimpleDate :=
  if truthy v then
    match v with
    | .str s => parseIsoDate s
    | _ => none
  else none

/-! ## Raw data model (vendor JSON, duck-typed) -/

/-- A raw line item as it sits in a vendor file.  Fields the code never
reads are not modelled; an absent field is IVal.undef.  isObject false
models an array entry that is not an object at all. -/
structure RawItem where
  isObject : Bool := true
  itemNumber : IVal := .undef
  amount : IVal := .undef
  unit : IVal := .undef
  itemDescription01 : IVal := .undef
  itemDescription02 : IVal := .undef
  itemActualName : IVal := .undef
  frenchItemDescription1 : IVal := .undef
  taxFlag : IVal := .undef
  itemDepartmentNumber : IVal := .undef
  itemUnitPriceAmount : IVal := .undef
  fuelUnitQuantity : IVal := .undef
  fuelGradeCode : IVal := .undef
  fuelGradeDescription : IVal := .undef
  fuelUomCode : IVal := .undef
  fullItemImage : IVal := .undef
  catEntryId : IVal := .undef
deriving Repr, DecidableEq

/-- The itemArray field of a raw receipt: absent, present as a
non-array value, or an actual array of (possibly non-object) entries. -/
inductive ItemsField where
  | absent : ItemsField
  | ival : IVal → ItemsField
  | array : List RawItem → ItemsField
deriving Repr, DecidableEq

/-- A raw receipt as it sits in a vendor file (either schema variant). -/
structure RawReceipt where
  isObject : Bool := true
  transactionType : IVal := .undef
  total : IVal := .undef
  warehouseNumber : IVal := .undef
  transactionDate : IVal := .undef
  transactionDateISO : IVal := .undef
  transactionDateTime : IVal := .undef
  itemArray : ItemsField := .absent
  tenderArray : IVal := .undef
  couponArray : IVal := .undef
  subTotal : IVal := .undef
  taxes : IVal := .undef
  instantSavings : IVal := .undef
  orderDiscountAmount : IVal := .undef
  channel : IVal := .undef
  documentType : IVal := .undef
  receiptType : IVal := .undef
  membershipNumber : IVal := .undef
  transactionNumber : IVal := .undef
  totalItemCount : IVal := .undef
  warehouseName : IVal := .undef
  warehouseCity : IVal := .undef
  warehouseState : IVal := .undef
  warehouseProvince : IVal := .undef
  warehouseCountry : IVal := .undef
  warehouseFullAddress : IVal := .undef
  subTaxes : IVal := .undef
  transactionBarcode : IVal := .undef
deriving Repr, DecidableEq

/-! ## Canonical model (Normalizer output) -/

/-- A canonical item, the output of normalizeItem. -/
structure Item where
  itemNumber : String
  amount : ℚ
  unit : ℚ
  itemDescription01 : String
  itemDescription02 : String
  itemActualName : String
  normalizedName : String
  unitPrice : ℚ
  isDiscount : Bool
  discountAppliesTo : Option String
  taxFlag : IVal
  itemDepartmentNumber : IVal
  itemUnitPriceAmount : IVal
  fuelUnitQuantity : IVal
  fuelGradeCode : IVal
  fuelGradeDescription : IVal
  fuelUomCode : IVal
  fullItemImage : IVal
  catEntryId : IVal
deriving Repr, DecidableEq

/-- A canonical receipt, the output of normalizeReceipt.  processedAt
(new Date() in the source) is modelled as an explicit clock argument. -/
structure Receipt where
  id : String
  processedAt : ℕ
  sourceFile : String
  transactionDate : IVal
  transactionDateTime : Option SimpleDate
  transactionType : IVal
  warehouseNumber : ℚ
  warehouseName : String
  warehouseCity : String
  warehouseState : IVal
  warehouseCountry : IVal
  warehouseFullAddress : String
  total : ℚ
  subTotal : ℚ
  taxes : ℚ
  instantSavings : ℚ
  itemArray : List Item
  tenderArray : IVal
  couponArray : IVal
  membershipNumber : Option String
  receiptType : IVal
  documentType : IVal
  channel : IVal
  transactionNumber : IVal
  totalItemCount : IVal
  subTaxes : IVal
  origReceipt : RawReceipt
deriving Repr, DecidableEq

/-! ## Normalizer -/

/-- generateReceiptId of init.js. -/
def generateReceiptId (receipt : RawReceipt) (index : ℕ) : String :=
  let date := if truthy receipt.transactionDate then receipt.transactionDate else .str ""
  let warehouse := if truthy receipt.warehouseNumber then receipt.warehouseNumber else .str ""
  let transNum := if truthy receipt.transactionNumber then receipt.transactionNumber else .str ""
  let total := if truthy receipt.total then receipt.total else .str ""
  if truthy transNum && truthy warehouse && truthy date then
    jsToString warehouse ++ "-" ++ jsToString date ++ "-" ++ jsToString transNum
  else
    let hashInput := jsToString date ++ "-" ++ jsToString warehouse ++ "-" ++ jsToString total ++ "-" ++ toString index
    "receipt-" ++ String.mk ((btoa hashInput).toList.take 16)

/-- The unit a raw item normalizes to: a number is kept, a string is
parseFloat-ed with fallback 1 (online unit labels such as EA), anything
else becomes 0. -/
def normalizeUnit (item : RawItem) : ℚ :=
  match item.unit with
  | .num q => q
  | .str s => match jsParseFloat s with
      | some q => q
      | none => 1
  | _ => 0

/-- hasItemReference of normalizeItem: a name-like field starts with a
slash (the cleaned actual-name or description, or the raw French
description). -/
def hasItemReferenceB (item : RawItem) : Bool :=
  (cleanText item.itemActualName != "" && strStarts (cleanText item.itemActualName) "/") ||
  (cleanText item.itemDescription01 != "" && strStarts (cleanText item.itemDescription01) "/") ||
  (truthy item.frenchItemDescription1 && strStarts (strValOrEmpty item.frenchItemDescription1) "/")

/-- isReturn of normalizeItem: negative amount and negative quantity
with no item reference. -/
def isReturnB (item : RawItem) : Bool :=
  decide (numberOr0 item.amount < 0) && decide (normalizeUnit item < 0) && !hasItemReferenceB item

/-- First slash-digits group of a string, as the regex match against
/(\d+)/ captures it. -/
def slashDigits : List Char → Option String
  | [] => none
  | '/' :: rest =>
      let ds := rest.takeWhile Char.isDigit
      if ds.isEmpty then slashDigits rest else some (String.mk ds)
  | _ :: rest => slashDigits rest

/-- normalizeItem of init.js. -/
def normalizeItem (item : RawItem) : Item :=
  let unit := normalizeUnit item
  let amount := numberOr0 item.amount
  let itemNumber := jsToString (if truthy item.itemNumber then item.itemNumber else .str "")
  let d01 := cleanText item.itemDescription01
  let d02 := cleanText item.itemDescription02
  let an := cleanText item.itemActualName
  let unitPrice :=
    if unit ≠ 0 then amount / unit
    else if truthy item.itemUnitPriceAmount then numberOr0 item.itemUnitPriceAmount
    else amount
  let unitPrice := round2 unitPrice
  let hasRef := hasItemReferenceB item
  let isDiscount := decide (amount < 0) && (hasRef || (!isReturnB item && decide (0 ≤ unit)))
  let discountAppliesTo :=
    if isDiscount && hasRef then
      slashDigits (if an != "" then an else if d01 != "" then d01 else strValOrEmpty item.frenchItemDescription1).toList
    else none
  let normalizedName :=
    if an != "" && !strStarts an "/" then an
    else if d01 != "" && !strStarts d01 "/" then d01 ++ (if d02 != "" then " " ++ d02 else "")
    else if isDiscount && discountAppliesTo.isSome then "Discount on Item " ++ discountAppliesTo.getD ""
    else "Item " ++ itemNumber
  { itemNumber := itemNumber
    amount := amount
    unit := unit
    itemDescription01 := d01
    itemDescription02 := d02
    itemActualName := an
    normalizedName := normalizedName
    unitPrice := unitPrice
    isDiscount := isDiscount
    discountAppliesTo := discountAppliesTo
    taxFlag := if truthy item.taxFlag then item.taxFlag else .inull
    itemDepartmentNumber := if truthy item.itemDepartmentNumber then item.itemDepartmentNumber else .inull
    itemUnitPriceAmount := if truthy item.itemUnitPriceAmount then item.itemUnitPriceAmount else .inull
    fuelUnitQuantity := item.fuelUnitQuantity
    fuelGradeCode := if truthy item.fuelGradeCode then item.fuelGradeCode else .inull
    fuelGradeDescription := if truthy item.fuelGradeDescription then item.fuelGradeDescription else .inull
    fuelUomCode := if truthy item.fuelUomCode then item.fuelUomCode else .inull
    fullItemImage := if truthy item.fullItemImage then item.fullItemImage else .inull
    catEntryId := if truthy item.catEntryId then item.catEntryId else .inull }

/-- normalizeReceipt of init.js; now is the wall clock (new Date())
passed explicitly. -/
def normalizeReceipt (receipt : RawReceipt) (index : ℕ) (sourceFile : String) (now : ℕ) : Receipt :=
  let dateSource :=
    if truthy receipt.transactionDateISO then receipt.transactionDateISO
    else if truthy receipt.transactionDateTime then receipt.transactionDateTime
    else if truthy receipt.transactionDate then receipt.transactionDate
    else .undef
  let transactionDate := jsParseDate dateSource
  let tt0 := if truthy receipt.transactionType then receipt.transactionType else .str "Sales"
  let transactionType := if tt0 = .str "Delivered" then .str "Sales" else tt0
  let isOnlineName := receipt.channel = .str "online" ∨ receipt.documentType = .str "ONLINE" ∨
    receipt.documentType = .str "OnlineReceipts"
  let itemArray :=
    match receipt.itemArray with
    | .array l => l.map normalizeItem
    | _ => []
  let totalItemCount0 := if truthy receipt.totalItemCount then receipt.totalItemCount else .num 0
  let totalItemCount := if !truthy totalItemCount0 then .num (itemArray.length : ℚ) else totalItemCount0
  let isOnlineOrder := receipt.channel = .str "online" ∨ receipt.documentType = .str "ONLINE" ∨
    receipt.documentType = .str "OnlineReceipts"
  let instantSavings :=
    if isOnlineOrder ∧ truthy receipt.orderDiscountAmount then numberOr0 receipt.orderDiscountAmount
    else itemArray.foldl (fun acc item => if item.isDiscount && decide (item.amount < 0) then acc + |item.amount| else acc) 0
  { id := generateReceiptId receipt index
    processedAt := now
    sourceFile := sourceFile
    transactionDate := if truthy receipt.transactionDate then receipt.transactionDate else .inull
    transactionDateTime := transactionDate
    transactionType := transactionType
    warehouseNumber := numberOr0 receipt.warehouseNumber
    warehouseName := if isOnlineName then "Online" else cleanText receipt.warehouseName
    warehouseCity := cleanText receipt.warehouseCity
    warehouseState :=
      if truthy receipt.warehouseState then receipt.warehouseState
      else if truthy receipt.warehouseProvince then receipt.warehouseProvince
      else .inull
    warehouseCountry := if truthy receipt.warehouseCountry then receipt.warehouseCountry else .inull
    warehouseFullAddress := cleanText receipt.warehouseFullAddress
    total := numberOr0 receipt.total
    subTotal := numberOr0 receipt.subTotal
    taxes := numberOr0 receipt.taxes
    instantSavings := instantSavings
    itemArray := itemArray
    tenderArray := if truthy receipt.tenderArray then receipt.tenderArray else .iarr
    couponArray := if truthy receipt.couponArray then receipt.couponArray else .iarr
    membershipNumber := if truthy receipt.membershipNumber then some (jsToString receipt.membershipNumber) else none
    receiptType := if truthy receipt.receiptType then receipt.receiptType else .inull
    documentType := if truthy receipt.documentType then receipt.documentType else .inull
    channel := if truthy receipt.channel then receipt.channel else .inull
    transactionNumber := if truthy receipt.transactionNumber then receipt.transactionNumber else .inull
    totalItemCount := totalItemCount
    subTaxes := if truthy receipt.subTaxes then receipt.subTaxes else .inull
    origReceipt := receipt }

/-! ## Deduplicator (mergeReceipts) -/

/-- The dedup key of a receipt: the vendor transaction barcode of the
retained raw payload when present, else the derived id.  JS Map keys
compare by identity of the primitive value, modelled by IVal equality. -/
def dedupKey (r : Receipt) : IVal :=
  if truthy r.origReceipt.transactionBarcode then r.origReceipt.transactionBarcode else .str r.id

/-- Lookup in an insertion-ordered association list (JS Map.get). -/
def mapFind (m : List (IVal × Receipt)) (k : IVal) : Option Receipt :=
  match m with
  | [] => none
  | (k', v) :: rest => if k' = k then some v else mapFind rest k

/-- In-place update of an insertion-ordered association list
(JS Map.set on an existing key keeps the insertion position). -/
def mapSet (m : List (IVal × Receipt)) (k : IVal) (v : Receipt) : List (IVal × Receipt) :=
  match m with
  | [] => [(k, v)]
  | (k', v') :: rest => if k' = k then (k', v) :: rest else (k', v') :: mapSet rest k v

/-- One receipt of the merge loop: on a key collision the candidate
replaces the kept receipt only when its itemArray is strictly longer. -/
def mergeStep (m : List (IVal × Receipt)) (receipt : Receipt) : List (IVal × Receipt) :=
  let key := dedupKey receipt
  match mapFind m key with
  | some existing =>
      if receipt.itemArray.length > existing.itemArray.length then mapSet m key receipt else m
  | none => m ++ [(key, receipt)]

/-- mergeReceipts of init.js (the logging counters carry no data and
are not modelled). -/
def mergeReceipts (receiptsArray : List (List Receipt)) : List Receipt :=
  ((receiptsArray.flatten).foldl mergeStep []).map (fun p => p.2)

/-! ## Filter Engine -/

/-- The FilterManager's mutable state (all filters cleared is the
initial state of the source's state object). -/
structure FilterState where
  dateStart : Option SimpleDate := none
  dateEnd : Option SimpleDate := none
  warehouse : Option String := none
  channel : Option String := none
  membershipNumber : Option String := none
  searchTerm : Option String := none
  transactionType : Option String := none
  currentPreset : String := "all"
deriving Repr, DecidableEq

/-- Truthiness of a nullable string filter setting. -/
def truthyOpt : Option String → Bool
  | some s => s != ""
  | none => false

/-- channel or receiptType or warehouse, the channel default chain used
by the filter and stats code. -/
def effChannel (r : Receipt) : IVal :=
  if truthy r.channel then r.channel
  else if truthy r.receiptType then r.receiptType
  else .str "warehouse"

/-- The date-range stage of applyFilters. -/
def dateStage (st : FilterState) (receipts : List Receipt) : List Receipt :=
  if st.dateStart.isSome || st.dateEnd.isSome then
    receipts.filter (fun r =>
      match r.transactionDateTime with
      | none => false
      | some d =>
          !(match st.dateStart with
            | some s => dateLt d s
            | none => false) &&
          !(match st.dateEnd with
            | some e => dateLt e d
            | none => false))
  else receipts

/-- The channel stage of applyFilters. -/
def channelStage (st : FilterState) (receipts : List Receipt) : List Receipt :=
  if truthyOpt st.channel then
    receipts.filter (fun r =>
      let channel := effChannel r
      if st.channel = some "warehouse" then
        channel = .str "warehouse" || channel = .str "In-Warehouse" || channel = .str "Gas Station"
      else if st.channel = some "online" then
        channel = .str "online"
      else true)
  else receipts

/-- The warehouse stage of applyFilters. -/
def warehouseStage (st : FilterState) (receipts : List Receipt) : List Receipt :=
  match st.warehouse with
  | none => receipts
  | some w =>
      if w = "all" then receipts
      else if w = "ONLINE" then
        receipts.filter (fun r =>
          r.channel = .str "online" || r.documentType = .str "ONLINE" ||
          r.documentType = .str "OnlineReceipts" || r.warehouseName = "Online")
      else
        receipts.filter (fun r =>
          match jsNumberOfString w with
          | some q => r.warehouseNumber = q
          | none => false)

/-- The membership stage of applyFilters. -/
def membershipStage (st : FilterState) (receipts : List Receipt) : List Receipt :=
  if truthyOpt st.membershipNumber then
    receipts.filter (fun r =>
      match r.membershipNumber with
      | some s => st.membershipNumber = some s
      | none => false)
  else receipts

/-- The transaction-type stage of applyFilters. -/
def transactionTypeStage (st : FilterState) (receipts : List Receipt) : List Receipt :=
  if truthyOpt st.transactionType && st.transactionType ≠ some "all" then
    receipts.filter (fun r => r.transactionType = .str (st.transactionType.getD ""))
  else receipts

/-- The free-text search stage of applyFilters. -/
def searchStage (st : FilterState) (receipts : List Receipt) : List Receipt :=
  if truthyOpt st.searchTerm then
    let term := strLower (st.searchTerm.getD "")
    receipts.filter (fun r =>
      r.itemArray.any (fun item =>
        jsIncludes (strLower item.normalizedName) term || jsIncludes item.itemNumber term))
  else receipts

/-- applyFilters of init.js: the conjunctive stage pipeline in source
order. -/
def applyFilters (st : FilterState) (receipts : List Receipt) : List Receipt :=
  searchStage st (transactionTypeStage st (membershipStage st
    (warehouseStage st (channelStage st (dateStage st receipts)))))

/-! ## Aggregator: calculateTotals -/

/-- The stats object calculateTotals returns.  Fields the source sets
only on one of its two return paths are Options (absent = undefined):
totalItems appears only in the empty-input object, uniqueReturnedItems
and refundSpent only in the accumulated one. -/
structure TotalsStats where
  totalSpent : ℚ := 0
  netSpent : ℚ := 0
  grossSpent : ℚ := 0
  totalItems : Option ℚ := none
  totalReceipts : ℕ := 0
  warehouseVisits : ℕ := 0
  onlineOrders : ℕ := 0
  totalTaxes : ℚ := 0
  totalSavings : ℚ := 0
  salesReceipts : ℕ := 0
  refundReceipts : ℕ := 0
  refundAmount : ℚ := 0
  refundItemCount : ℚ := 0
  uniqueReturnedItems : Option ℕ := none
  totalPurchaseCount : ℚ := 0
  uniqueItems : ℕ := 0
  netUniqueItems : ℕ := 0
  avgPricePerItem : ℚ := 0
  refundSpent : Option ℚ := none
deriving Repr, DecidableEq

/-- The literal returned for an empty (or non-array) input. -/
def emptyTotals : TotalsStats :=
  { totalSpent := 0, netSpent := 0, grossSpent := 0, totalItems := some 0,
    totalReceipts := 0, warehouseVisits := 0, onlineOrders := 0,
    totalTaxes := 0, totalSavings := 0, salesReceipts := 0,
    refundReceipts := 0, refundAmount := 0, refundItemCount := 0,
    totalPurchaseCount := 0, uniqueItems := 0, netUniqueItems := 0,
    avgPricePerItem := 0 }

/-- A receipt counts as a refund when its type is a refund type or its
total is negative. -/
def isRefundReceipt (r : Receipt) : Bool :=
  r.transactionType = .str "Refund" || r.transactionType = .str "Return" ||
  r.transactionType = .str "Returned" || decide (r.total < 0)

/-- Accumulator of the calculateTotals loop, including the unique-item
sets and the per-item net-quantity map (insertion-ordered lists). -/
structure TotAcc where
  warehouseVisits : ℕ := 0
  onlineOrders : ℕ := 0
  totalTaxes : ℚ := 0
  totalSavings : ℚ := 0
  salesReceipts : ℕ := 0
  refundReceipts : ℕ := 0
  refundAmount : ℚ := 0
  refundItemCount : ℚ := 0
  grossSpent : ℚ := 0
  refundSpent : ℚ := 0
  totalPurchaseCount : ℚ := 0
  uniqueItemsSet : List String := []
  uniqueReturnedItemsSet : List String := []
  itemNetQuantities : List (String × ℚ) := []
deriving Repr, DecidableEq

/-- Set.add on a set modelled as a duplicate-free insertion list. -/
def setAdd (l : List String) (s : String) : List String :=
  if s ∈ l then l else l ++ [s]

/-- Map.set-with-delta on the net-quantity map. -/
def bumpQty (l : List (String × ℚ)) (k : String) (dq : ℚ) : List (String × ℚ) :=
  match l with
  | [] => [(k, dq)]
  | (k', q) :: rest => if k' = k then (k', q + dq) :: rest else (k', q) :: bumpQty rest k dq

/-- The per-item body of the calculateTotals loop.  Canonical items
carry no quantity property, so Number(item.quantity) is NaN and the
or-1 default always yields 1. -/
def totalsItemStep (isRefund : Bool) (acc : TotAcc) (item : Item) : TotAcc :=
  let qty : ℚ := 1
  let itemNum := item.itemNumber
  let acc :=
    if isRefund then
      { acc with refundItemCount := acc.refundItemCount + |qty|,
                 uniqueReturnedItemsSet :=
                   if itemNum ≠ "" then setAdd acc.uniqueReturnedItemsSet itemNum
                   else acc.uniqueReturnedItemsSet }
    else
      { acc with totalPurchaseCount := acc.totalPurchaseCount + qty }
  if itemNum ≠ "" then
    { acc with uniqueItemsSet := setAdd acc.uniqueItemsSet itemNum,
               itemNetQuantities :=
                 if isRefund then bumpQty acc.itemNetQuantities itemNum (-|qty|)
                 else bumpQty acc.itemNetQuantities itemNum qty }
  else acc

/-- The per-receipt body of the calculateTotals loop. -/
def totalsStep (acc : TotAcc) (receipt : Receipt) : TotAcc :=
  let isRefund := isRefundReceipt receipt
  let receiptTotal := receipt.total
  let channel := effChannel receipt
  let acc :=
    if channel = .str "online" || receipt.documentType = .str "OnlineReceipts" then
      { acc with onlineOrders := acc.onlineOrders + 1 }
    else if channel ≠ .str "gas_station" then
      { acc with warehouseVisits := acc.warehouseVisits + 1 }
    else acc
  let acc :=
    if isRefund then
      { acc with refundReceipts := acc.refundReceipts + 1,
                 refundAmount := acc.refundAmount + |receiptTotal|,
                 refundSpent := acc.refundSpent - |receiptTotal| }
    else
      { acc with salesReceipts := acc.salesReceipts + 1,
                 grossSpent := acc.grossSpent + receiptTotal }
  let acc :=
    if isRefund then
      { acc with totalTaxes := acc.totalTaxes - |receipt.taxes|,
                 totalSavings := acc.totalSavings - |receipt.instantSavings| }
    else
      { acc with totalTaxes := acc.totalTaxes + receipt.taxes,
                 totalSavings := acc.totalSavings + receipt.instantSavings }
  receipt.itemArray.foldl (totalsItemStep isRefund) acc

/-- calculateTotals of init.js. -/
def calculateTotals (receipts : List Receipt) : TotalsStats :=
  if receipts.isEmpty then emptyTotals
  else
    let acc := receipts.foldl totalsStep {}
    let netSpent := acc.grossSpent + acc.refundSpent
    let avgPricePerItem :=
      if acc.totalPurchaseCount > 0 then acc.grossSpent / acc.totalPurchaseCount else 0
    { totalSpent := round2 netSpent
      netSpent := round2 netSpent
      grossSpent := round2 acc.grossSpent
      totalItems := none
      totalReceipts := receipts.length
      warehouseVisits := acc.warehouseVisits
      onlineOrders := acc.onlineOrders
      totalTaxes := round2 acc.totalTaxes
      totalSavings := round2 acc.totalSavings
      salesReceipts := acc.salesReceipts
      refundReceipts := acc.refundReceipts
      refundAmount := round2 acc.refundAmount
      refundItemCount := acc.refundItemCount
      uniqueReturnedItems := some acc.uniqueReturnedItemsSet.length
      totalPurchaseCount := acc.totalPurchaseCount
      uniqueItems := acc.uniqueItemsSet.length
      netUniqueItems := (acc.itemNetQuantities.filter (fun p => decide (0 < p.2))).length
      avgPricePerItem := round2 avgPricePerItem
      refundSpent := some acc.refundSpent }

/-! ## Aggregator: calculateExecutiveRewards -/

/-- The options object of calculateExecutiveRewards. -/
structure RewardOptions where
  cycleStartMonth : IVal := .undef
  cycleStartDay : IVal := .undef
  additionalExcludedDepartments : Option (List ℚ) := none
deriving Repr, DecidableEq

/-- One entry of the byYear result map. -/
structure YearReward where
  year : ℤ
  subtotal : ℚ
  reward : ℚ
deriving Repr, DecidableEq

/-- The result of calculateExecutiveRewards. -/
structure RewardsResult where
  byYear : List YearReward
  totalReward : ℚ
  cycleStartMonth : ℚ
  cycleStartDay : ℚ
deriving Repr, DecidableEq

/-- The per-cycle reward formula: two percent of the qualifying
subtotal, hard-capped at 1250. -/
def rewardForSubtotal (s : ℚ) : ℚ := min (s * (2 / 100)) 1250

/-- getCycleYear of calculateExecutiveRewards: the calendar year of the
most recent cycle start on or before the date (cycleStartMonth is
1-based, the Date constructor takes it 0-based). -/
def getCycleYear (cycleStartMonth cycleStartDay : ℤ) (date : SimpleDate) : ℤ :=
  let startThisYear := mkLocalDate date.year (cycleStartMonth - 1) cycleStartDay
  if !dateLt date startThisYear then date.year else date.year - 1

/-- Number(x) or-else 1, the option-default idiom of the rewards
options. -/
def numberOr1 (v : IVal) : ℚ :=
  match jsNumber v with
  | some q => if q = 0 then 1 else q
  | none => 1

/-- Whether an item's department is excluded from the reward
(Set.has compares with strict equality: only number departments can
match the numeric exclusion list). -/
def deptExcluded (excluded : List ℚ) (item : Item) : Bool :=
  let dept := if truthy item.itemDepartmentNumber then item.itemDepartmentNumber else .num 0
  match dept with
  | .num q => q ∈ excluded
  | _ => false

/-- The qualifying subtotal of one receipt: non-discount items outside
the excluded departments with non-negative amounts. -/
def qualifyingSubtotal (excluded : List ℚ) (r : Receipt) : ℚ :=
  r.itemArray.foldl
    (fun acc item =>
      if item.isDiscount then acc
      else if deptExcluded excluded item || decide (item.amount < 0) then acc
      else acc + item.amount)
    0

/-- Whether calculateExecutiveRewards skips the receipt as gas or
travel. -/
def isGasOrTravel (r : Receipt) : Bool :=
  let channel := effChannel r
  let docType := if truthy r.documentType then r.documentType else .str ""
  let isGas := channel = .str "gas_station" || channel = .str "Gas Station" ||
    docType = .str "FuelReceipts" || r.receiptType = .str "Gas Station"
  let isTravel := jsIncludes (strLower (strValOrEmpty docType)) "travel" ||
    (truthy r.receiptType && jsIncludes (strLower (strValOrEmpty r.receiptType)) "travel") ||
    jsIncludes (strLower (strValOrEmpty channel)) "travel"
  isGas || isTravel

/-- Add a receipt's qualifying subtotal to its cycle year in the byYear
accumulator (a JS object keyed by year; entries created on first use). -/
def addToYear (m : List (ℤ × ℚ)) (y : ℤ) (q : ℚ) : List (ℤ × ℚ) :=
  match m with
  | [] => [(y, q)]
  | (y', s) :: rest => if y' = y then (y', s + q) :: rest else (y', s) :: addToYear rest y q

/-- The per-receipt body of the rewards loop: skip gas/travel, skip
negative totals, skip unparseable dates, else accumulate the
qualifying subtotal under the receipt's cycle year. -/
def rewardsStep (csm csd : ℤ) (excluded : List ℚ) (m : List (ℤ × ℚ)) (r : Receipt) : List (ℤ × ℚ) :=
  if isGasOrTravel r then m
  else if r.total < 0 then m
  else
    match r.transactionDateTime with
    | none => m
    | some date => addToYear m (getCycleYear csm csd date) (qualifyingSubtotal excluded r)

/-- calculateExecutiveRewards of init.js. -/
def calculateExecutiveRewards (receipts : List Receipt) (options : RewardOptions) : RewardsResult :=
  let cycleStartMonth := numberOr1 options.cycleStartMonth
  let cycleStartDay := numberOr1 options.cycleStartDay
  let excluded := [75, 93] ++ options.additionalExcludedDepartments.getD []
  let csm := jsTrunc cycleStartMonth
  let csd := jsTrunc cycleStartDay
  let byYearAcc := receipts.foldl (rewardsStep csm csd excluded) []
  let byYear := byYearAcc.map (fun p => YearReward.mk p.1 p.2 (rewardForSubtotal p.2))
  { byYear := byYear
    totalReward := byYear.foldl (fun t e => t + e.reward) 0
    cycleStartMonth := cycleStartMonth
    cycleStartDay := cycleStartDay }

/-! ## Validator -/

/-- A guarded error or warning message list: the message when the
condition holds, else nothing. -/
def errIf (b : Bool) (m : String) : List String := if b then [m] else []

/-- A required receipt field is missing when absent, undefined or null. -/
def fieldMissing (v : IVal) : Bool := v = .undef || v = .inull

/-- The itemArray required-field check (in-test plus null test). -/
def itemsFieldMissing : ItemsField → Bool
  | .absent => true
  | .ival v => fieldMissing v
  | .array _ => false

/-- validateItem of init.js: the errors and warnings for one raw item
(receiptIndex and itemIndex only parameterize the message text). -/
def validateItem (item : RawItem) (receiptIndex itemIndex : ℕ) : List String × List String :=
  let pre := "Receipt " ++ toString receiptIndex ++ ", Item " ++ toString itemIndex ++ ": "
  if !item.isObject then ([pre ++ "Not a valid object"], [])
  else
    (errIf (item.itemNumber = .undef) (pre ++ "Missing required field itemNumber") ++
     errIf (item.amount = .undef) (pre ++ "Missing required field amount") ++
     errIf (item.unit = .undef) (pre ++ "Missing required field unit") ++
     errIf (item.amount ≠ .inull && !isNum item.amount) (pre ++ "amount must be a number") ++
     errIf (item.unit ≠ .inull && !isNum item.unit && !isStr item.unit)
       (pre ++ "unit must be a number or string") ++
     errIf (truthy item.itemNumber && !isStr item.itemNumber) (pre ++ "itemNumber must be a string"),
     errIf (!truthy item.itemDescription01 && !truthy item.itemActualName)
       (pre ++ "No item description available"))

/-- The per-item validation loop over an itemArray, threading the item
index. -/
def itemsValidation (receiptIndex : ℕ) : List RawItem → ℕ → List String × List String
  | [], _ => ([], [])
  | item :: rest, i =>
      let (e, w) := validateItem item receiptIndex i
      let (es, ws) := itemsValidation receiptIndex rest (i + 1)
      (e ++ es, w ++ ws)

/-- The itemArray part of validateReceipt: an error when not an array,
a warning when empty, else the per-item validations. -/
def itemArrayValidation (receiptIndex : ℕ) (f : ItemsField) : List String × List String :=
  let pre := "Receipt " ++ toString receiptIndex ++ ": "
  match f with
  | .array l =>
      if l.isEmpty then ([], [pre ++ "itemArray is empty"])
      else itemsValidation receiptIndex l 0
  | _ => ([pre ++ "itemArray must be an array"], [])

/-- The valid transaction-type strings. -/
def validTransactionTypes : List String :=
  ["Sales", "Refund", "Return", "Delivered", "Shipped", "Cancelled", "Returned"]

/-- The transaction-type warning: a truthy value that is not one of the
known strings. -/
def transactionTypeWarning (receiptIndex : ℕ) (v : IVal) : List String :=
  errIf (truthy v &&
      !(match v with
        | .str s => s ∈ validTransactionTypes
        | _ => false))
    ("Receipt " ++ toString receiptIndex ++ ": Unexpected transactionType")

/-- The subtotal-plus-tax consistency warning (2 cent tolerance).  The
discount defaults to 0; the warning only fires on numeric fields (with
non-numeric fields the JS arithmetic produces NaN, and a NaN
comparison is false). -/
def consistencyWarning (receiptIndex : ℕ) (r : RawReceipt) : List String :=
  errIf
    (truthy r.subTotal && truthy r.taxes && truthy r.total &&
      isNum r.subTotal && isNum r.taxes && isNum r.total &&
      (let discount := if truthy r.orderDiscountAmount then numberOr0 r.orderDiscountAmount else 0
       decide (2 / 100 < |numberOr0 r.subTotal + numberOr0 r.taxes - discount - numberOr0 r.total|)))
    ("Receipt " ++ toString receiptIndex ++ ": Total does not match subTotal + taxes - discount")

/-- The outcome shape of validateReceipt. -/
structure ReceiptValidation where
  valid : Bool
  errors : List String
  warnings : List String
deriving Repr, DecidableEq

/-- validateReceipt of init.js. -/
def validateReceipt (receipt : RawReceipt) (index : ℕ) : ReceiptValidation :=
  let pre := "Receipt " ++ toString index ++ ": "
  if !receipt.isObject then
    { valid := false, errors := [pre ++ "Not a valid object"], warnings := [] }
  else
    let (itemErrs, itemWarns) := itemArrayValidation index receipt.itemArray
    let errors :=
      errIf (fieldMissing receipt.transactionType) (pre ++ "Missing required field transactionType") ++
      errIf (fieldMissing receipt.total) (pre ++ "Missing required field total") ++
      errIf (itemsFieldMissing receipt.itemArray) (pre ++ "Missing required field itemArray") ++
      errIf (fieldMissing receipt.warehouseNumber) (pre ++ "Missing required field warehouseNumber") ++
      errIf (!truthy receipt.transactionDate && !truthy receipt.transactionDateISO &&
          !truthy receipt.transactionDateTime) (pre ++ "Missing required date field") ++
      errIf (truthy receipt.transactionDate && !isStr receipt.transactionDate)
        (pre ++ "transactionDate must be a string") ++
      errIf (receipt.total ≠ .inull && receipt.total ≠ .str "" && !isNum receipt.total)
        (pre ++ "total must be a number or empty string") ++
      errIf (receipt.warehouseNumber ≠ .inull && !isNum receipt.warehouseNumber)
        (pre ++ "warehouseNumber must be a number") ++
      itemErrs ++
      errIf (truthy receipt.tenderArray && !isArr receipt.tenderArray)
        (pre ++ "tenderArray must be an array") ++
      errIf (truthy receipt.couponArray && !isArr receipt.couponArray)
        (pre ++ "couponArray must be an array")
    let warnings := itemWarns ++ transactionTypeWarning index receipt.transactionType ++
      consistencyWarning index receipt
    { valid := errors.isEmpty, errors := errors, warnings := warnings }

/-- The validity of one raw item: no condition whose failure
validateItem records as an error holds (the negated error conditions,
in source order). -/
def itemOK (item : RawItem) : Bool :=
  item.isObject &&
  !(item.itemNumber = .undef) && !(item.amount = .undef) && !(item.unit = .undef) &&
  !(item.amount ≠ .inull && !isNum item.amount) &&
  !(item.unit ≠ .inull && !isNum item.unit && !isStr item.unit) &&
  !(truthy item.itemNumber && !isStr item.itemNumber)

/-- The validity of every entry of an itemArray field: the field is an
actual array and every entry passes validateItem (an empty array is
only a warning). -/
def itemArrayOK : ItemsField → Bool
  | .array l => l.all itemOK
  | _ => false

/-- The validity of one raw receipt: no condition whose failure
validateReceipt records as an error holds (the negated error
conditions, in source order). -/
def receiptOK (receipt : RawReceipt) : Bool :=
  receipt.isObject &&
  !fieldMissing receipt.transactionType && !fieldMissing receipt.total &&
  !itemsFieldMissing receipt.itemArray && !fieldMissing receipt.warehouseNumber &&
  !(!truthy receipt.transactionDate && !truthy receipt.transactionDateISO &&
      !truthy receipt.transactionDateTime) &&
  !(truthy receipt.transactionDate && !isStr receipt.transactionDate) &&
  !(receipt.total ≠ .inull && receipt.total ≠ .str "" && !isNum receipt.total) &&
  !(receipt.warehouseNumber ≠ .inull && !isNum receipt.warehouseNumber) &&
  itemArrayOK receipt.itemArray &&
  !(truthy receipt.tenderArray && !isArr receipt.tenderArray) &&
  !(truthy receipt.couponArray && !isArr receipt.couponArray)

/-- The outcome shape of validateJSONStructure.  The early-rejection
paths return an object without the count and filename fields; those are
Options. -/
structure JsonValidation where
  valid : Bool
  errors : List String
  warnings : List String
  receipts : List RawReceipt
  totalCount : Option ℕ := none
  validCount : Option ℕ := none
  invalidCount : Option ℕ := none
  filename : Option String := none
deriving Repr, DecidableEq

/-- The per-receipt loop of validateJSONStructure: valid receipts
collected, errors of invalid receipts and all warnings appended. -/
def collectValid : List RawReceipt → ℕ → List RawReceipt × List String × List String
  | [], _ => ([], [], [])
  | receipt :: rest, i =>
      let v := validateReceipt receipt i
      let (vr, es, ws) := collectValid rest (i + 1)
      if v.valid then (receipt :: vr, es, v.warnings ++ ws)
      else (vr, v.errors ++ es, v.warnings ++ ws)

/-- validateJSONStructure of init.js; none in place of the data models
a root payload that is not an array. -/
def validateJSONStructure (data : Option (List RawReceipt)) (filename : String) : JsonValidation :=
  match data with
  | none =>
      { valid := false, errors := [filename ++ ": Root element must be an array of receipts"],
        warnings := [], receipts := [] }
  | some [] =>
      { valid := false, errors := [filename ++ ": Receipt array is empty"],
        warnings := [], receipts := [] }
  | some l =>
      let (validReceipts, errors, warnings) := collectValid l 0
      { valid := decide (0 < validReceipts.length)
        errors := errors
        warnings := warnings
        receipts := validReceipts
        totalCount := some l.length
        validCount := some validReceipts.length
        invalidCount := some (l.length - validReceipts.length)
        filename := some filename }

/-! ## Concrete inputs for the end-to-end scenarios -/

/-- The purchased item of the end-to-end warehouse scenario. -/
def rawC1item : RawItem :=
  { itemNumber := .str "111", amount := .num (1999 / 100), unit := .num 1,
    itemActualName := .str "KS WIDGET" }

/-- The discount line of the end-to-end warehouse scenario, referencing
item 111 through the description field slash pattern and carrying the
same item number. -/
def rawC1disc : RawItem :=
  { itemNumber := .str "111", amount := .num (-2), unit := .num 0,
    itemDescription01 := .str "/111" }

/-- The end-to-end warehouse receipt: dated 2024-03-15, total 21.37,
taxes 1.38, one item plus one discount line. -/
def rawC1 : RawReceipt :=
  { transactionType := .str "Sales", total := .num (2137 / 100),
    subTotal := .num (1999 / 100), taxes := .num (138 / 100),
    warehouseNumber := .num 100, transactionDate := .str "2024-03-15",
    transactionNumber := .str "555",
    itemArray := .array [rawC1item, rawC1disc] }

/-- The canonical receipt of the end-to-end warehouse scenario. -/
def normC1 : Receipt := normalizeReceipt rawC1 0 "receipts.json" 0

/-- A sales receipt with the sub-cent total -0.004 (the negative total
makes it count as a refund). -/
def rawC2 : RawReceipt :=
  { transactionType := .str "Sales", total := .num (-1 / 250),
    warehouseNumber := .num 100, transactionDate := .str "2024-03-15",
    transactionNumber := .str "7", itemArray := .array [] }

/-- The canonical receipt of the sub-cent-total example. -/
def normC2 : Receipt := normalizeReceipt rawC2 0 "f.json" 0

/-- A raw receipt with vendor barcode B1 and a one-entry itemArray. -/
def rawMergeA : RawReceipt :=
  { transactionType := .str "Sales", total := .num 30,
    warehouseNumber := .num 7, transactionDate := .str "2024-05-01",
    transactionNumber := .str "42", transactionBarcode := .str "B1",
    itemArray := .array [{ itemNumber := .str "1001", amount := .num 30, unit := .num 1 }] }

/-- The same transaction exported with barcode B1 and a two-entry
itemArray (the more complete duplicate). -/
def rawMergeB : RawReceipt :=
  { transactionType := .str "Sales", total := .num 30,
    warehouseNumber := .num 7, transactionDate := .str "2024-05-01",
    transactionNumber := .str "42", transactionBarcode := .str "B1",
    itemArray := .array
      [{ itemNumber := .str "1001", amount := .num 25, unit := .num 1 },
       { itemNumber := .str "1002", amount := .num 5, unit := .num 1 }] }

/-- Another export with barcode B1 and a one-entry itemArray (same
completeness as rawMergeA, different content). -/
def rawMergeC : RawReceipt :=
  { transactionType := .str "Sales", total := .num 35,
    warehouseNumber := .num 7, transactionDate := .str "2024-05-01",
    transactionNumber := .str "43", transactionBarcode := .str "B1",
    itemArray := .array [{ itemNumber := .str "1003", amount := .num 35, unit := .num 1 }] }

def mergeRA : Receipt := normalizeReceipt rawMergeA 0 "a.json" 0

def mergeRB : Receipt := normalizeReceipt rawMergeB 0 "b.json" 0

def mergeRC : Receipt := normalizeReceipt rawMergeC 1 "a.json" 0

/-- A raw receipt with no date field at all: its canonical
transactionDateTime is null. -/
def rawNoDate : RawReceipt :=
  { transactionType := .str "Sales", total := .num 10,
    warehouseNumber := .num 7, transactionNumber := .str "9",
    itemArray := .array [{ itemNumber := .str "1001", amount := .num 10, unit := .num 1 }] }

def noDateR : Receipt := normalizeReceipt rawNoDate 0 "d.json" 0

/-- A filter state whose only active filter is a start date. -/
def stC9 : FilterState := { dateStart := some ⟨2024, 1, 1⟩ }

/-- A rational that is a whole number of cents. -/
def CentMul (q : ℚ) : Prop := ∃ k : ℤ, q = (k : ℚ) / 100

/-! ## Helper lemmas -/

theorem daysInMonth_ge (y m : ℤ) : 28 ≤ daysInMonth y m := by
  unfold daysInMonth
  split_ifs <;> omega

theorem mkLocalDate_in_range (Y csm d : ℤ) (h1 : 1 ≤ csm) (h2 : csm ≤ 12)
    (h3 : 1 ≤ d) (h4 : d ≤ daysInMonth Y csm) :
    mkLocalDate Y (csm - 1) d = ⟨Y, csm, d⟩ := by
  unfold mkLocalDate
  have hdiv : (Y * 12 + (csm - 1)) / 12 = Y := by omega
  have hmod : (Y * 12 + (csm - 1)) % 12 = csm - 1 := by omega
  simp only [hdiv, hmod]
  have hmm : csm - 1 + 1 = csm := by omega
  rw [hmm, if_pos ⟨h3, h4⟩]

theorem dateLt_self (d : SimpleDate) : dateLt d d = false := by
  simp [dateLt]

theorem centMul_zero : CentMul 0 := ⟨0, by norm_num⟩

theorem centMul_add {a b : ℚ} (ha : CentMul a) (hb : CentMul b) : CentMul (a + b) := by
  obtain ⟨k, rfl⟩ := ha
  obtain ⟨m, rfl⟩ := hb
  exact ⟨k + m, by push_cast; ring⟩

theorem centMul_sub_abs {a b : ℚ} (ha : CentMul a) (hb : CentMul b) : CentMul (a - |b|) := by
  obtain ⟨k, rfl⟩ := ha
  obtain ⟨m, rfl⟩ := hb
  refine ⟨k - |m|, ?_⟩
  rw [abs_div]
  push_cast
  rw [abs_of_nonneg (by norm_num : (0:ℚ) ≤ 100)]
  ring

theorem centMul_round2 {q : ℚ} (h : CentMul q) : round2 q = q := by
  obtain ⟨k, rfl⟩ := h
  unfold round2 jsRound
  have h1 : (k : ℚ) / 100 * 100 = (k : ℚ) := by field_simp
  rw [h1, add_comm, Int.floor_add_int]
  norm_num

theorem itemStep_gross (b : Bool) (acc : TotAcc) (it : Item) :
    (totalsItemStep b acc it).grossSpent = acc.grossSpent := by
  simp only [totalsItemStep]
  split_ifs <;> rfl

theorem itemStep_refund (b : Bool) (acc : TotAcc) (it : Item) :
    (totalsItemStep b acc it).refundSpent = acc.refundSpent := by
  simp only [totalsItemStep]
  split_ifs <;> rfl

theorem itemsFold_gross (b : Bool) (items : List Item) (acc : TotAcc) :
    (items.foldl (totalsItemStep b) acc).grossSpent = acc.grossSpent := by
  induction items generalizing acc with
  | nil => rfl
  | cons it rest ih => rw [List.foldl_cons, ih, itemStep_gross]

theorem itemsFold_refund (b : Bool) (items : List Item) (acc : TotAcc) :
    (items.foldl (totalsItemStep b) acc).refundSpent = acc.refundSpent := by
  induction items generalizing acc with
  | nil => rfl
  | cons it rest ih => rw [List.foldl_cons, ih, itemStep_refund]

theorem totalsStep_gross (acc : TotAcc) (r : Receipt) :
    (totalsStep acc r).grossSpent =
      if isRefundReceipt r then acc.grossSpent else acc.grossSpent + r.total := by
  simp only [totalsStep, itemsFold_gross]
  split_ifs <;> rfl

theorem totalsStep_refund (acc : TotAcc) (r : Receipt) :
    (totalsStep acc r).refundSpent =
      if isRefundReceipt r then acc.refundSpent - |r.total| else acc.refundSpent := by
  simp only [totalsStep, itemsFold_refund]
  split_ifs <;> rfl

theorem fold_refund_nonpos (l : List Receipt) (acc : TotAcc) (h : acc.refundSpent ≤ 0) :
    (l.foldl totalsStep acc).refundSpent ≤ 0 := by
  induction l generalizing acc with
  | nil => exact h
  | cons r rest ih =>
      rw [List.foldl_cons]
      apply ih
      rw [totalsStep_refund]
      split_ifs
      · have := abs_nonneg r.total
        linarith
      · exact h

theorem fold_cent (l : List Receipt) (acc : TotAcc)
    (hg : CentMul acc.grossSpent) (hr : CentMul acc.refundSpent)
    (hl : ∀ r ∈ l, CentMul r.total) :
    CentMul ((l.foldl totalsStep acc).grossSpent) ∧
      CentMul ((l.foldl totalsStep acc).refundSpent) := by
  induction l generalizing acc with
  | nil => exact ⟨hg, hr⟩
  | cons r rest ih =>
      rw [List.foldl_cons]
      apply ih
      · rw [totalsStep_gross]
        split_ifs
        · exact hg
        · exact centMul_add hg (hl r (List.mem_cons_self r rest))
      · rw [totalsStep_refund]
        split_ifs
        · exact centMul_sub_abs hr (hl r (List.mem_cons_self r rest))
        · exact hr
      · exact fun x hx => hl x (List.mem_cons_of_mem r hx)

theorem errIf_isEmpty (b : Bool) (m : String) : (errIf b m).isEmpty = !b := by
  cases b <;> rfl

theorem isEmpty_append {α : Type} (xs ys : List α) :
    (xs ++ ys).isEmpty = (xs.isEmpty && ys.isEmpty) := by
  cases xs <;> simp

theorem itemErrs_isEmpty (item : RawItem) (ri ii : ℕ) :
    (validateItem item ri ii).1.isEmpty = itemOK item := by
  unfold validateItem itemOK
  by_cases ho : item.isObject
  · simp [ho, isEmpty_append, errIf_isEmpty, Bool.and_assoc]
  · simp [ho]

theorem itemsValidation_isEmpty (ri : ℕ) (l : List RawItem) (i : ℕ) :
    (itemsValidation ri l i).1.isEmpty = l.all itemOK := by
  induction l generalizing i with
  | nil => rfl
  | cons item rest ih =>
      simp only [itemsValidation, List.all_cons, isEmpty_append, itemErrs_isEmpty, ih]

theorem itemArrayValidation_isEmpty (ri : ℕ) (f : ItemsField) :
    (itemArrayValidation ri f).1.isEmpty = itemArrayOK f := by
  unfold itemArrayValidation itemArrayOK
  match f with
  | .absent => rfl
  | .ival v => rfl
  | .array l =>
      by_cases hl : l.isEmpty
      · have : l = [] := List.isEmpty_iff.mp hl
        subst this
        rfl
      · simp only [if_neg hl, itemsValidation_isEmpty]

theorem validateReceipt_valid (receipt : RawReceipt) (i : ℕ) :
    (validateReceipt receipt i).valid = receiptOK receipt := by
  unfold validateReceipt receiptOK
  by_cases ho : receipt.isObject
  · simp [ho, isEmpty_append, errIf_isEmpty, itemArrayValidation_isEmpty, Bool.and_assoc]
  · simp [ho]

theorem collectValid_receipts (l : List RawReceipt) (i : ℕ) :
    (collectValid l i).1 = l.filter receiptOK := by
  induction l generalizing i with
  | nil => rfl
  | cons r rest ih =>
      simp only [collectValid, validateReceipt_valid, List.filter_cons]
      by_cases h : receiptOK r
      · simp [h, ih]
      · simp [h, ih]

theorem mem_of_ite_filter {c : Prop} [Decidable c] {p : Receipt → Bool} {l : List Receipt}
    {r : Receipt} : r ∈ (if c then l.filter p else l) → r ∈ l := by
  split_ifs
  · exact fun hm => (List.mem_filter.mp hm).1
  · exact id

theorem dateStage_sub (st : FilterState) (l : List Receipt) (r : Receipt) :
    r ∈ dateStage st l → r ∈ l := by
  unfold dateStage
  exact mem_of_ite_filter

theorem channelStage_sub (st : FilterState) (l : List Receipt) (r : Receipt) :
    r ∈ channelStage st l → r ∈ l := by
  unfold channelStage
  exact mem_of_ite_filter

theorem warehouseStage_sub (st : FilterState) (l : List Receipt) (r : Receipt) :
    r ∈ warehouseStage st l → r ∈ l := by
  unfold warehouseStage
  split
  · exact id
  · split_ifs
    · exact id
    · exact fun hm => (List.mem_filter.mp hm).1
    · exact fun hm => (List.mem_filter.mp hm).1

theorem membershipStage_sub (st : FilterState) (l : List Receipt) (r : Receipt) :
    r ∈ membershipStage st l → r ∈ l := by
  unfold membershipStage
  exact mem_of_ite_filter

theorem transactionTypeStage_sub (st : FilterState) (l : List Receipt) (r : Receipt) :
    r ∈ transactionTypeStage st l → r ∈ l := by
  unfold transactionTypeStage
  exact mem_of_ite_filter

theorem searchStage_sub (st : FilterState) (l : List Receipt) (r : Receipt) :
    r ∈ searchStage st l → r ∈ l := by
  unfold searchStage
  exact mem_of_ite_filter

/-! ## The claims -/

set_option maxRecDepth 4000 in
/-- C1 (counterexample): on the end-to-end warehouse scenario (receipt
dated 2024-03-15, total 21.37, item 111 at 19.99 for 1 unit, discount
line -2.00 referencing item 111, taxes 1.38), calculateTotals does not
return avgPricePerItem = 19.99: the average it computes is grossSpent
over the purchase-unit count, which counts one unit for the discount
line too. -/
theorem claim1_counterexample :
    (calculateTotals [normC1]).avgPricePerItem ≠ 1999 / 100 := by
  with_unfolding_all decide

set_option maxRecDepth 4000 in
/-- C1 (amended): on the end-to-end warehouse scenario, calculateTotals
returns grossSpent = 21.37, totalSavings = 2.00, totalTaxes = 1.38 and
uniqueItems = 1 as claimed, but avgPricePerItem = 10.69, because the
purchase-unit count is 2 (one unit per line item, the discount line
included) and the average is grossSpent / purchase-unit count
(21.37 / 2, rounded to cents). -/
theorem claim1_totals_amended :
    (calculateTotals [normC1]).grossSpent = 2137 / 100 ∧
    (calculateTotals [normC1]).totalSavings = 2 ∧
    (calculateTotals [normC1]).totalTaxes = 138 / 100 ∧
    (calculateTotals [normC1]).uniqueItems = 1 ∧
    (calculateTotals [normC1]).totalPurchaseCount = 2 ∧
    (calculateTotals [normC1]).avgPricePerItem = 1069 / 100 := by
  with_unfolding_all decide

set_option maxRecDepth 4000 in
/-- C2 (counterexample): for a one-receipt set whose total is the
sub-cent value -0.004, the stats violate
netSpent = grossSpent + refundSpent: netSpent and grossSpent are
rounded to cents on return while refundSpent is not, so netSpent = 0
but grossSpent + refundSpent = -0.004. -/
theorem claim2_counterexample :
    ¬ ((calculateTotals [normC2]).netSpent =
        (calculateTotals [normC2]).grossSpent + (calculateTotals [normC2]).refundSpent.getD 0) := by
  with_unfolding_all decide

/-- C2 (amended): for every receipt set, refundSpent is never positive;
and netSpent = grossSpent + refundSpent holds whenever every receipt
total is a whole number of cents (the rounding to cents applied to
netSpent and grossSpent, but not to refundSpent, is then the
identity).  The empty-set stats object omits refundSpent, read here as
its JS arithmetic default through getD 0. -/
theorem claim2_net_gross_invariant (receipts : List Receipt) :
    (calculateTotals receipts).refundSpent.getD 0 ≤ 0 ∧
    ((∀ r ∈ receipts, CentMul r.total) →
      (calculateTotals receipts).netSpent =
        (calculateTotals receipts).grossSpent +
          (calculateTotals receipts).refundSpent.getD 0) := by
  by_cases he : receipts.isEmpty
  · constructor
    · simp [calculateTotals, he, emptyTotals]
    · intro _
      simp [calculateTotals, he, emptyTotals]
  · unfold calculateTotals
    rw [if_neg he]
    simp only [Option.getD_some]
    constructor
    · exact fold_refund_nonpos receipts {} le_rfl
    · intro hcent
      have hc := fold_cent receipts {} centMul_zero centMul_zero hcent
      rw [centMul_round2 (centMul_add hc.1 hc.2), centMul_round2 hc.1]

/-- C3: the discount and return classifications of normalizeItem are
mutually exclusive: an item meeting the return condition (negative
amount, negative unit, no item reference) is never classified as a
discount. -/
theorem claim3_discount_return_exclusive (item : RawItem) :
    (isReturnB item && (normalizeItem item).isDiscount) = false := by
  unfold normalizeItem isReturnB
  by_cases ha : numberOr0 item.amount < 0
  · by_cases hu : normalizeUnit item < 0
    · by_cases hr : hasItemReferenceB item = true
      · simp [hr]
      · have h0 : ¬ (0 ≤ normalizeUnit item) := by linarith
        simp [hr, ha, hu, h0]
    · simp [hu]
  · simp [ha]

/-- C4: in calculateExecutiveRewards, every cycle year's reward equals
min(0.02 * S, 1250) for that year's accumulated qualifying subtotal S,
and the reward formula is monotone non-decreasing in S. -/
theorem claim4_reward_cap (receipts : List Receipt) (options : RewardOptions) :
    (∀ e ∈ (calculateExecutiveRewards receipts options).byYear,
        e.reward = rewardForSubtotal e.subtotal ∧
          e.reward = min (e.subtotal * (2 / 100)) 1250) ∧
    (∀ s1 s2 : ℚ, s1 ≤ s2 → rewardForSubtotal s1 ≤ rewardForSubtotal s2) := by
  constructor
  · intro e he
    simp only [calculateExecutiveRewards, List.mem_map] at he
    obtain ⟨p, hp, rfl⟩ := he
    exact ⟨rfl, rfl⟩
  · intro s1 s2 h
    unfold rewardForSubtotal
    have hmul : s1 * (2 / 100) ≤ s2 * (2 / 100) := by linarith
    exact min_le_min hmul le_rfl

/-- C5: for a valid configured cycle start (month 1..12, day within
that month of year Y), a transaction dated exactly on the cycle start
of year Y is assigned cycle year Y, and a transaction dated one
calendar day earlier is assigned cycle year Y - 1. -/
theorem claim5_cycle_boundary (Y csm csd : ℤ) (h1 : 1 ≤ csm) (h2 : csm ≤ 12)
    (h3 : 1 ≤ csd) (h4 : csd ≤ daysInMonth Y csm) :
    getCycleYear csm csd ⟨Y, csm, csd⟩ = Y ∧
    getCycleYear csm csd (prevCalendarDay ⟨Y, csm, csd⟩) = Y - 1 := by
  constructor
  · unfold getCycleYear
    simp only
    rw [mkLocalDate_in_range Y csm csd h1 h2 h3 h4, dateLt_self]
    simp
  · unfold prevCalendarDay
    by_cases hcsd : 1 < csd
    · simp only [show (SimpleDate.mk Y csm csd).day = csd from rfl, if_pos hcsd]
      unfold getCycleYear
      simp only
      rw [mkLocalDate_in_range Y csm csd h1 h2 h3 h4]
      have hlt : dateLt ⟨Y, csm, csd - 1⟩ ⟨Y, csm, csd⟩ = true := by
        simp [dateLt]
      rw [hlt]
      simp
    · have hcsd1 : csd = 1 := by omega
      subst hcsd1
      by_cases hcsm : 1 < csm
      · simp only [show (SimpleDate.mk Y csm 1).day = 1 from rfl,
          show (SimpleDate.mk Y csm 1).month = csm from rfl, if_neg (by omega : ¬ (1:ℤ) < 1),
          if_pos hcsm]
        unfold getCycleYear
        simp only
        rw [mkLocalDate_in_range Y csm 1 h1 h2 (by omega)
            (by have := daysInMonth_ge Y csm; omega)]
        have hlt : dateLt ⟨Y, csm - 1, daysInMonth Y (csm - 1)⟩ ⟨Y, csm, 1⟩ = true := by
          simp [dateLt]
        rw [hlt]
        simp
      · have hcsm1 : csm = 1 := by omega
        subst hcsm1
        simp only [show (SimpleDate.mk Y 1 1).day = 1 from rfl,
          show (SimpleDate.mk Y 1 1).month = 1 from rfl, if_neg (by omega : ¬ (1:ℤ) < 1)]
        unfold getCycleYear
        simp only
        rw [mkLocalDate_in_range (Y - 1) 1 1 (by omega) (by omega) (by omega)
            (by have := daysInMonth_ge (Y - 1) 1; omega)]
        have hlt : dateLt ⟨Y - 1, 12, 31⟩ ⟨Y - 1, 1, 1⟩ = false := by
          simp [dateLt]
        rw [hlt]
        simp

/-- C5 witness: a cycle starting March 15 puts a 2024-03-15 transaction
in cycle year 2024 and a 2024-03-14 transaction in cycle year 2023. -/
theorem claim5_cycle_boundary_witness :
    getCycleYear 3 15 ⟨2024, 3, 15⟩ = 2024 ∧
    getCycleYear 3 15 (prevCalendarDay ⟨2024, 3, 15⟩) = 2024 - 1 :=
  claim5_cycle_boundary 2024 3 15 (by norm_num) (by norm_num) (by norm_num)
    (by with_unfolding_all decide)

/-- C6: when two receipts share a dedup key and their itemArrays have
different lengths, mergeReceipts keeps exactly the receipt with the
longer itemArray, in either input order. -/
theorem claim6_dedup_longer (r1 r2 : Receipt) (hk : dedupKey r1 = dedupKey r2)
    (hl : r1.itemArray.length < r2.itemArray.length) :
    mergeReceipts [[r1, r2]] = [r2] ∧ mergeReceipts [[r2, r1]] = [r2] := by
  constructor
  · simp [mergeReceipts, mergeStep, mapFind, mapSet, hk, hl]
  · simp [mergeReceipts, mergeStep, mapFind, mapSet, hk, Nat.not_lt.mpr (Nat.le_of_lt hl)]

/-- C6 witness: two exports of barcode B1 with one and two line items;
the two-item receipt survives in both input orders. -/
theorem claim6_dedup_longer_witness :
    mergeReceipts [[mergeRA, mergeRB]] = [mergeRB] ∧
    mergeReceipts [[mergeRB, mergeRA]] = [mergeRB] :=
  claim6_dedup_longer mergeRA mergeRB (by with_unfolding_all decide)
    (by with_unfolding_all decide)

/-- C7: normalizeReceipt is idempotent: the retained original payload
is the raw input itself, so re-normalizing it with the same index,
source file and clock reproduces the canonical receipt exactly. -/
theorem claim7_normalize_idempotent (raw : RawReceipt) (i : ℕ) (f : String) (now : ℕ) :
    normalizeReceipt ((normalizeReceipt raw i f now).origReceipt) i f now =
      normalizeReceipt raw i f now := rfl

/-- C8: validateJSONStructure rejects a file exactly when the root is
not an array, the array is empty, or no receipt passes per-receipt
validation; and it always retains exactly the receipts that pass, with
validCount, invalidCount and totalCount reporting the counts whenever
the file is accepted. -/
theorem claim8_validate_structure (data : Option (List RawReceipt)) (fn : String) :
    ((validateJSONStructure data fn).valid = false ↔
      (data = none ∨ data = some [] ∨ (data.getD []).all (fun r => !receiptOK r) = true)) ∧
    (validateJSONStructure data fn).receipts = (data.getD []).filter receiptOK ∧
    ((validateJSONStructure data fn).valid = true →
      (validateJSONStructure data fn).validCount = some ((data.getD []).countP receiptOK) ∧
      (validateJSONStructure data fn).invalidCount =
        some ((data.getD []).length - (data.getD []).countP receiptOK) ∧
      (validateJSONStructure data fn).totalCount = some (data.getD []).length) := by
  match data with
  | none => simp [validateJSONStructure]
  | some [] => simp [validateJSONStructure]
  | some (r :: rest) =>
      have hrec : (collectValid (r :: rest) 0).1 = (r :: rest).filter receiptOK :=
        collectValid_receipts (r :: rest) 0
      refine ⟨?_, ?_, ?_⟩
      · simp only [validateJSONStructure, hrec, Option.getD_some]
        constructor
        · intro h
          right; right
          simp only [decide_eq_false_iff_not, not_lt, Nat.le_zero, List.length_eq_zero] at h
          rw [List.filter_eq_nil_iff] at h
          simp only [List.all_eq_true]
          intro x hx
          simp [h x hx]
        · rintro (h | h | h)
          · exact absurd h (by simp)
          · exact absurd h (by simp)
          · simp only [List.all_eq_true] at h
            have hnil : (r :: rest).filter receiptOK = [] := by
              rw [List.filter_eq_nil_iff]
              intro x hx
              have hx' := h x hx
              simp at hx'
              simp [hx']
            simp [hnil]
      · simp [validateJSONStructure, hrec]
      · intro _
        simp [validateJSONStructure, hrec, List.countP_eq_length_filter]

/-- C9: whenever a date-range bound is set, applyFilters drops every
receipt whose transactionDateTime is null, whatever the other filter
settings and the rest of the input. -/
theorem claim9_date_filter_null (st : FilterState) (receipts : List Receipt) (r : Receipt)
    (hbound : st.dateStart.isSome = true ∨ st.dateEnd.isSome = true)
    (hnull : r.transactionDateTime = none) :
    r ∉ applyFilters st receipts := by
  intro hmem
  unfold applyFilters at hmem
  have h6 := searchStage_sub st _ r hmem
  have h5 := transactionTypeStage_sub st _ r h6
  have h4 := membershipStage_sub st _ r h5
  have h3 := warehouseStage_sub st _ r h4
  have h2 := channelStage_sub st _ r h3
  have hguard : (st.dateStart.isSome || st.dateEnd.isSome) = true := by
    rcases hbound with h | h <;> simp [h]
  unfold dateStage at h2
  rw [if_pos hguard] at h2
  have hp := (List.mem_filter.mp h2).2
  rw [hnull] at hp
  simp at hp

/-- C9 witness: with only a start date set, a receipt with no parseable
date is excluded even though every other filter is inactive. -/
theorem claim9_date_filter_null_witness : noDateR ∉ applyFilters stC9 [noDateR] :=
  claim9_date_filter_null stC9 [noDateR] noDateR (Or.inl (by with_unfolding_all decide))
    (by with_unfolding_all decide)

/-- C10: when two receipts share a dedup key and their itemArrays have
the same length, mergeReceipts keeps the first-encountered receipt
(replacement needs a strictly longer itemArray). -/
theorem claim10_dedup_equal_first (r1 r2 : Receipt) (hk : dedupKey r1 = dedupKey r2)
    (hl : r1.itemArray.length = r2.itemArray.length) :
    mergeReceipts [[r1, r2]] = [r1] := by
  simp [mergeReceipts, mergeStep, mapFind, mapSet, hk, Nat.not_lt.mpr (Nat.le_of_eq hl.symm)]

/-- C10 witness: two equally complete exports of barcode B1; the first
one encountered is the one kept. -/
theorem claim10_dedup_equal_first_witness :
    mergeReceipts [[mergeRA, mergeRC]] = [mergeRA] :=
  claim10_dedup_equal_first mergeRA mergeRC (by with_unfolding_all decide)
    (by with_unfolding_all decide)
